import Mathlib

/-!
Shallow embedding of the cart / pricing / notification core of `app.py`
(KimhutCafe).  Python `Decimal` values are modelled as exact rationals
(`ℚ`); session-cart values (which, through the Flask JSON session, are
integers or strings) are modelled by `CVal`; fallible Python code
(statements that can raise) is modelled in `Except Unit`.
-/

deriving instance DecidableEq for Except

namespace KimhutCafe

/-- A value stored in the session cart: the Flask JSON-backed session holds
integers (written by `add_to_cart` / `update_cart`) or, in principle,
strings.  Keys of the cart are always strings. -/
inductive CVal where
  | int (n : ℤ)
  | str (s : String)
deriving DecidableEq, Repr

/-- The session cart `session["cart"]`: an insertion-ordered mapping from
product-id string to stored value, modelled as an association list with
unique keys (Python `dict`). -/
abbrev Cart := List (String × CVal)

/-- Model of `cart.get(pid)` / `cart[pid]` read access. -/
def cartGet : Cart → String → Option CVal
  | [], _ => none
  | e :: rest, k => if e.1 = k then some e.2 else cartGet rest k

/-- Model of `cart[pid] = v` dict assignment: update in place (keeping insertion
order) if the key exists, else append. -/
def cartSet : Cart → String → CVal → Cart
  | [], k, v => [(k, v)]
  | e :: rest, k, v => if e.1 = k then (k, v) :: rest else e :: cartSet rest k v

/-! ### Python string parsing (`int(...)`, `Decimal(...)`) -/

/-- ASCII whitespace, as stripped by Python `int(str)` / `Decimal(str)`. -/
def isPySpace (c : Char) : Bool :=
  c = ' ' || c = '\t' || c = '\n' || c = '\x0d' || c = '\x0b' || c = '\x0c'

/-- Strip leading and trailing whitespace from a character list. -/
def stripChars (l : List Char) : List Char :=
  ((l.dropWhile isPySpace).reverse.dropWhile isPySpace).reverse

/-- Numeric value of a (checked-elsewhere) digit list. -/
def digitsToNat (l : List Char) : ℕ :=
  l.foldl (fun a c => 10 * a + (c.toNat - 48)) 0

/-- Value of a nonempty all-digit list, else `none`. -/
def parseDigits (l : List Char) : Option ℕ :=
  if l.isEmpty then none
  else if l.all Char.isDigit then some (digitsToNat l) else none

/-- Python `int(s)` on a string: strip whitespace, optional sign, then a
nonempty run of decimal digits; anything else raises `ValueError`
(modelled as `none`).  (Digit-group underscores and non-ASCII digits,
which CPython also accepts, are not modelled.) -/
def parsePyInt (s : String) : Option ℤ :=
  match stripChars s.toList with
  | [] => none
  | c :: rest =>
    if c = '-' then (parseDigits rest).map (fun n => -(n : ℤ))
    else if c = '+' then (parseDigits rest).map (fun n => (n : ℤ))
    else (parseDigits (c :: rest)).map (fun n => (n : ℤ))

/-- Unsigned body of a Python decimal literal, in decidable form:
digits with at most one point and at least one digit (`"12"`, `"12."`,
`".5"`, `"12.34"`), returned as (integer part, fraction digits value,
number of fraction digits). -/
def parseDecBody (l : List Char) : Option (ℕ × ℕ × ℕ) :=
  let intPart := l.takeWhile (fun c => !(c == '.'))
  match l.dropWhile (fun c => !(c == '.')) with
  | [] =>
    if intPart.isEmpty then none
    else if intPart.all Char.isDigit then some (digitsToNat intPart, 0, 0) else none
  | _ :: frac =>
    if intPart.all Char.isDigit && frac.all Char.isDigit then
      if intPart.isEmpty && frac.isEmpty then none
      else some (digitsToNat intPart, digitsToNat frac, frac.length)
    else none

/-- Signed decidable form of a Python decimal literal: sign flag plus
the body parts. -/
def parsePyDecimalParts (s : String) : Option (Bool × ℕ × ℕ × ℕ) :=
  match stripChars s.toList with
  | [] => none
  | c :: rest =>
    if c = '-' then (parseDecBody rest).map (fun p => (true, p))
    else if c = '+' then (parseDecBody rest).map (fun p => (false, p))
    else (parseDecBody (c :: rest)).map (fun p => (false, p))

/-- Exact rational value of parsed decimal parts. -/
def partsToRat : Bool × ℕ × ℕ × ℕ → ℚ
  | (neg, ip, fv, fl) =>
    let q : ℚ := (ip : ℚ) + (fv : ℚ) / ((10 : ℚ) ^ fl)
    if neg then -q else q

/-- Python `Decimal(s)` on a string: strip whitespace, optional sign,
then a decimal-digit body; a malformed string raises `InvalidOperation`
(modelled as `none`).  (Exponent forms and `NaN`/`Infinity` are not
modelled.) -/
def parsePyDecimal (s : String) : Option ℚ :=
  (parsePyDecimalParts s).map partsToRat

/-- Python `int(q)` on a cart value (`int` is the identity on integers,
parses strings). -/
def cvToInt : CVal → Option ℤ
  | CVal.int n => some n
  | CVal.str s => parsePyInt s

/-- Python `Decimal(q)` on a cart value (exact on integers, parses
strings). -/
def cvToDec : CVal → Option ℚ
  | CVal.int n => some n
  | CVal.str s => parsePyDecimal s

/-! ### Money (`_money`, app.py lines 32–33) -/

/-- Round a rational to the nearest integer, ties away from zero: the
effect of `Decimal.quantize(..., rounding=ROUND_HALF_UP)` on the scaled
value. -/
def halfUp (q : ℚ) : ℤ :=
  if 0 ≤ q then ⌊q + 1 / 2⌋ else -⌊-q + 1 / 2⌋

/-- Model of `_money(x) = Decimal(x).quantize(Decimal("0.01"), rounding=ROUND_HALF_UP)`:
round an exact decimal to 2 fraction digits, half-up. -/
def _money (q : ℚ) : ℚ := (halfUp (q * 100) : ℚ) / 100

/-! ### Catalog and resolved line items (`cart_items`, app.py lines 35–50) -/

/-- One record of `PRODUCTS` (loaded from `products.json`); the price is
the exact value of `Decimal(product["price"])`. -/
structure Product where
  id : ℤ
  name : String
  price : ℚ
  category : String
deriving DecidableEq, Repr

/-- One dict of the `items` list built by `cart_items`. -/
structure LineItem where
  id : ℤ
  name : String
  price : ℚ
  qty : ℤ
  line_total : ℚ
deriving DecidableEq, Repr

/-- One iteration of the `for pid, qty in cart.items()` loop of
`cart_items`.  The key conversion `int(pid)` sits inside the generator
predicate of `next((p for p in PRODUCTS if p["id"] == int(pid)), None)`,
so it is evaluated lazily, once per scanned product: with an empty
catalog the predicate never runs and the entry is skipped without the
key ever being parsed; with a nonempty catalog a malformed key raises at
the first scanned product.  A missing product skips the entry; for a
found product, `Decimal(qty)` and `int(qty)` may raise. -/
def resolveEntry (PRODUCTS : List Product) (pid : String) (qty : CVal) :
    Except Unit (Option LineItem) :=
  match PRODUCTS with
  | [] => Except.ok none
  | _ :: _ =>
    match parsePyInt pid with
    | none => Except.error ()
    | some pidInt =>
      match PRODUCTS.find? (fun p => p.id == pidInt) with
      | none => Except.ok none
      | some product =>
        match cvToDec qty, cvToInt qty with
        | some qd, some qi =>
          Except.ok (some { id := product.id, name := product.name,
                            price := _money product.price, qty := qi,
                            line_total := _money (product.price * qd) })
        | _, _ => Except.error ()

/-- The whole loop of `cart_items`, collecting the resolved items in
cart order. -/
def resolveItems (PRODUCTS : List Product) : Cart → Except Unit (List LineItem)
  | [] => Except.ok []
  | (pid, qty) :: rest =>
    match resolveEntry PRODUCTS pid qty with
    | Except.error e => Except.error e
    | Except.ok none => resolveItems PRODUCTS rest
    | Except.ok (some it) =>
      match resolveItems PRODUCTS rest with
      | Except.error e => Except.error e
      | Except.ok items => Except.ok (it :: items)

/-- Model of `cart_items()`: resolve the session cart against the catalog and
return `(items, subtotal)` with
`subtotal = _money(sum(i["line_total"] for i in items))`. -/
def cart_items (PRODUCTS : List Product) (cart : Cart) :
    Except Unit (List LineItem × ℚ) :=
  match resolveItems PRODUCTS cart with
  | Except.error e => Except.error e
  | Except.ok items =>
    Except.ok (items, _money ((items.map (fun i => i.line_total)).sum))

/-! ### Cart mutation routes (`add_to_cart` lines 214–230,
`update_cart` lines 232–246) -/

/-- The cart mutation of the `add_to_cart` route:
`qty = int(request.form.get("qty", "1"))` (raises on a non-numeric
form value), then `cart[pid] = cart.get(pid, 0) + qty` (raises if the
stored value is a string, `str + int`). -/
def add_to_cart (pid : String) (qtyRaw : Option String) (cart : Cart) :
    Except Unit Cart :=
  match parsePyInt (qtyRaw.getD "1") with
  | none => Except.error ()
  | some qty =>
    match cartGet cart pid with
    | none => Except.ok (cartSet cart pid (CVal.int (0 + qty)))
    | some (CVal.int n) => Except.ok (cartSet cart pid (CVal.int (n + qty)))
    | some (CVal.str _) => Except.error ()

/-- Python `"qty_".isPrefixOf`‑style check: `key.startswith("qty_")`. -/
def startsWithQty (key : String) : Bool :=
  List.isPrefixOf "qty_".toList key.toList

/-- Python `str.replace(pat, rep)`: replace every non-overlapping
occurrence of `pat`, scanning left to right.  Structural recursion on a
fuel bounded below by the list length (each step consumes at least one
character, so the fuel never runs out when started at the length). -/
def listReplaceFuel (pat rep : List Char) : ℕ → List Char → List Char
  | 0, l => l
  | _ + 1, [] => []
  | fuel + 1, c :: rest =>
    if pat.isPrefixOf (c :: rest) && !pat.isEmpty then
      rep ++ listReplaceFuel pat rep fuel (rest.drop (pat.length - 1))
    else
      c :: listReplaceFuel pat rep fuel rest

/-- The function `listReplaceFuel` applied with enough fuel. -/
def listReplace (pat rep l : List Char) : List Char :=
  listReplaceFuel pat rep l.length l

/-- Model of `key.replace("qty_", "")` (string version of `listReplace`). -/
def pyReplace (s pat rep : String) : String :=
  String.mk (listReplace pat.toList rep.toList s.toList)

/-- One iteration of the `update_cart` loop body: keys starting with
`"qty_"` are parsed (`int(val)` inside `try`), clamped with
`max(0, ...)`, and inserted only when positive; a parse failure is
silently skipped (`except: pass`). -/
def update_cart_entry (cart : Cart) (key val : String) : Cart :=
  if startsWithQty key then
    match parsePyInt val with
    | none => cart
    | some v =>
      if 0 < max 0 v then cartSet cart (pyReplace key "qty_" "") (CVal.int (max 0 v))
      else cart
  else cart

/-- The `update_cart` route: builds a fresh cart (`cart = {}`) from the
posted form and stores it, replacing the previous session cart
entirely. -/
def update_cart (form : List (String × String)) : Cart :=
  form.foldl (fun c kv => update_cart_entry c kv.1 kv.2) []

/-! ### Cart badge count (`inject_cart_count`, app.py lines 191–198) -/

/-- Model of `sum(int(q) for q in cart.values())` evaluated left to right:
`none` as soon as any value fails to parse. -/
def sumQuantities : List CVal → Option ℤ
  | [] => some 0
  | v :: rest =>
    match cvToInt v, sumQuantities rest with
    | some n, some s => some (n + s)
    | _, _ => none

/-- Model of `inject_cart_count`: the whole sum is wrapped in one
`try/except`, so any malformed value makes the count 0. -/
def inject_cart_count (cart : Cart) : ℤ :=
  match sumQuantities (cart.map (fun e => e.2)) with
  | some s => s
  | none => 0

/-! ### Notification layer (`send_telegram` lines 52–67,
`send_invoice_email` lines 69–91, `send_contact_ack` lines 104–127) -/

/-- Python truthiness of an optional config string (`not token` is true
for `None` and for the empty string). -/
def truthy : Option String → Bool
  | none => false
  | some s => !(s == "")

/-- Telegram channel configuration (`TELEGRAM_BOT_TOKEN`,
`TELEGRAM_CHAT_ID`). -/
structure TelegramConfig where
  token : Option String
  chatId : Option String

/-- Mail channel configuration (`MAIL_USERNAME` is the configured-or-not
sentinel the code checks). -/
structure MailConfig where
  username : Option String

/-- Outcome of `requests.post` when it returns: `ok` is `r.ok`. -/
structure HttpResp where
  ok : Bool
  status : ℕ
  text : String

/-- The Telegram transport behaviour for one call: either a response or
a raised exception (`Except.error`). -/
abbrev HttpOutcome := Except Unit HttpResp

/-- The mail transport behaviour for one `mail.send(msg)` call:
`Except.ok ()` for a silent send, `Except.error ()` for a raised
exception. -/
abbrev MailOutcome := Except Unit Unit

/-- Model of `send_telegram(text)`: returns `False` when unconfigured; otherwise
the `requests.post` call sits inside `try/except`, returning `True` only
on `r.ok`.  The `Except` result type records that the function itself
can in principle raise; it never does. -/
def send_telegram (tcfg : TelegramConfig) (net : HttpOutcome) (text : String) :
    Except Unit Bool :=
  if !(truthy tcfg.token) || !(truthy tcfg.chatId) then Except.ok false
  else
    Except.ok (match net with
      | Except.ok r => if r.ok then true else false
      | Except.error _ => false)

/-- The customer record built in the `checkout` route. -/
structure Customer where
  name : String
  address : String
  email : String
  phone : String

/-- Model of `send_invoice_email(customer, items, subtotal)`: `False` without a
send when `MAIL_USERNAME` is unset, else `mail.send` inside
`try/except`.  (The body/subject strings, pure formatting that cannot
raise, are not tracked.) -/
def send_invoice_email (mcfg : MailConfig) (tr : MailOutcome)
    (customer : Customer) (items : List LineItem) (subtotal : ℚ) :
    Except Unit Bool :=
  if !(truthy mcfg.username) then Except.ok false
  else
    Except.ok (match tr with
      | Except.ok _ => true
      | Except.error _ => false)

/-- Model of `send_contact_ack(to_email, name, original_message)`: `False` for an
empty recipient or unset `MAIL_USERNAME`, else `mail.send` inside
`try/except`. -/
def send_contact_ack (mcfg : MailConfig) (tr : MailOutcome)
    (to_email name original_message : String) : Except Unit Bool :=
  if to_email == "" then Except.ok false
  else if !(truthy mcfg.username) then Except.ok false
  else
    Except.ok (match tr with
      | Except.ok _ => true
      | Except.error _ => false)

/-! ### The contact route POST branch (app.py lines 129–152) -/

/-- Model of `html.escape` on one character (quote=True default). -/
def escapeChar (c : Char) : String :=
  if c = '&' then "&amp;"
  else if c = '<' then "&lt;"
  else if c = '>' then "&gt;"
  else if c = '"' then "&quot;"
  else if c = Char.ofNat 39 then "&#x27;"
  else String.singleton c

/-- Model of `html.escape(s)`. -/
def html_escape (s : String) : String :=
  String.join (s.toList.map escapeChar)

/-- The Telegram text built by the contact route. -/
def contact_text (name email message : String) : String :=
  "<b>Contact</b>\nFrom: " ++ html_escape name ++ " &lt;" ++ html_escape email
    ++ "&gt;\n\n" ++ html_escape message

/-- The flash message chosen by the contact route from the two channel
outcomes. -/
def contact_flash (tg_ok ack_ok : Bool) : String :=
  if tg_ok || ack_ok then "Thanks! Your message was sent."
  else "Message received, but notifications are not configured."

/-- The POST branch of the `contact` route: strip the form fields, send
the Telegram push, send the customer acknowledgment, flash.  Returns
`(tg_ok, ack_ok, flash)`. -/
def contact_post (tcfg : TelegramConfig) (net : HttpOutcome)
    (mcfg : MailConfig) (tr : MailOutcome)
    (nameRaw emailRaw messageRaw : String) :
    Except Unit (Bool × Bool × String) :=
  let name := String.mk (stripChars nameRaw.toList)
  let email := String.mk (stripChars emailRaw.toList)
  let message := String.mk (stripChars messageRaw.toList)
  match send_telegram tcfg net (contact_text name email message) with
  | Except.error e => Except.error e
  | Except.ok tg_ok =>
    match send_contact_ack mcfg tr email name message with
    | Except.error e => Except.error e
    | Except.ok ack_ok => Except.ok (tg_ok, ack_ok, contact_flash tg_ok ack_ok)

/-! ### The checkout route POST branch (app.py lines 252–280) -/

/-- The Telegram order summary built by the checkout route.  (The exact
decimal rendering of amounts inside the text is abstracted by
`toString`; no result of the route depends on it.) -/
def order_text (customer : Customer) (items : List LineItem) (subtotal : ℚ) :
    String :=
  String.intercalate "\n"
    (["<b>New Order</b>",
      "Name: " ++ customer.name,
      "Email: " ++ customer.email,
      "Phone: " ++ customer.phone,
      "Address: " ++ customer.address,
      "",
      "Items:"]
     ++ items.map (fun i =>
          "- " ++ toString i.qty ++ " x " ++ i.name ++ " ($" ++ toString i.line_total ++ ")")
     ++ ["\nSubtotal: $" ++ toString subtotal])

/-- Everything the checkout POST branch leaves behind: the resolved
items and subtotal, the two (discarded by the code) channel outcomes,
the flash message, and the new session cart. -/
structure CheckoutResult where
  items : List LineItem
  subtotal : ℚ
  pushOk : Bool
  emailOk : Bool
  flash : String
  newCart : Cart
deriving Repr

/-- The POST branch of the `checkout` route: resolve the cart (may
raise), send the Telegram summary and the invoice email (results
ignored), then `session["cart"] = {}` and flash success. -/
def checkout_post (PRODUCTS : List Product) (tcfg : TelegramConfig)
    (net : HttpOutcome) (mcfg : MailConfig) (tr : MailOutcome)
    (customer : Customer) (cart : Cart) : Except Unit CheckoutResult :=
  match cart_items PRODUCTS cart with
  | Except.error e => Except.error e
  | Except.ok (items, subtotal) =>
    match send_telegram tcfg net (order_text customer items subtotal) with
    | Except.error e => Except.error e
    | Except.ok pushOk =>
      match send_invoice_email mcfg tr customer items subtotal with
      | Except.error e => Except.error e
      | Except.ok emailOk =>
        Except.ok { items := items, subtotal := subtotal, pushOk := pushOk,
                    emailOk := emailOk,
                    flash := "Checkout successful! Thanks for your order.",
                    newCart := [] }

/-! ### Derived characterizations and invariant predicates -/

/-- The channel outcome `send_telegram` computes, as a function of the
Telegram configuration and network behaviour alone. -/
def sendTelegramB (tcfg : TelegramConfig) (net : HttpOutcome) : Bool :=
  if !(truthy tcfg.token) || !(truthy tcfg.chatId) then false
  else match net with
    | Except.ok r => r.ok
    | Except.error _ => false

/-- The channel outcome `send_invoice_email` computes, as a function of
the mail configuration and transport behaviour alone. -/
def sendInvoiceB (mcfg : MailConfig) (tr : MailOutcome) : Bool :=
  if !(truthy mcfg.username) then false
  else match tr with
    | Except.ok _ => true
    | Except.error _ => false

/-- The channel outcome `send_contact_ack` computes, as a function of
the mail configuration, transport behaviour and recipient alone. -/
def sendAckB (mcfg : MailConfig) (tr : MailOutcome) (to_email : String) : Bool :=
  if to_email == "" then false
  else if !(truthy mcfg.username) then false
  else match tr with
    | Except.ok _ => true
    | Except.error _ => false

/-- An entry satisfies the cart invariant of the spec: an integer quantity
that is strictly positive. -/
def entryPositive (e : String × CVal) : Bool :=
  match e.2 with
  | CVal.int n => decide (0 < n)
  | CVal.str _ => false

/-- The CartEntry invariant of the spec over the whole cart. -/
def cartPositiveB (c : Cart) : Bool := c.all entryPositive

/-- An entry `cart_items` can process without raising: the key parses
as an integer and the value is an integer. -/
def entryWF (e : String × CVal) : Bool :=
  (parsePyInt e.1).isSome &&
    (match e.2 with
     | CVal.int _ => true
     | CVal.str _ => false)

/-- Well-formedness of a whole cart for `cart_items`. -/
def cartWF (c : Cart) : Bool := c.all entryWF

/-- Modelled from the spec: `totalQuantity` as the spec claims it —
"the sum of the parseable quantities", each malformed value
contributing 0. -/
def totalQuantity_claimed (cart : Cart) : ℤ :=
  ((cart.map (fun e => e.2)).filterMap cvToInt).sum

/-- Modelled from the spec: the alternative `subtotal` the spec rules
out — the quantization of the raw unrounded sum of `price * quantity`,
with no per-line quantization.  Mirrors the resolution loop of
`cart_items` but accumulates the unrounded products. -/
def rawLineTotals (PRODUCTS : List Product) : Cart → Except Unit (List ℚ)
  | [] => Except.ok []
  | (pid, qty) :: rest =>
    match parsePyInt pid with
    | none => Except.error ()
    | some pidInt =>
      match PRODUCTS.find? (fun p => p.id == pidInt) with
      | none => rawLineTotals PRODUCTS rest
      | some product =>
        match cvToDec qty with
        | none => Except.error ()
        | some qd =>
          match rawLineTotals PRODUCTS rest with
          | Except.error e => Except.error e
          | Except.ok l => Except.ok (product.price * qd :: l)

/-- Modelled from the spec: `quantize(Σ price_i * quantity_i)` over the
resolved entries. -/
def rawSubtotal (PRODUCTS : List Product) (cart : Cart) : Except Unit ℚ :=
  match rawLineTotals PRODUCTS cart with
  | Except.error e => Except.error e
  | Except.ok l => Except.ok (_money l.sum)

/-! ### Helper lemmas: cart primitives -/

theorem cartGet_cartSet (c : Cart) (k p : String) (v : CVal) :
    cartGet (cartSet c k v) p = if p = k then some v else cartGet c p := by
  induction c with
  | nil =>
    simp only [cartSet, cartGet]
    by_cases hpk : p = k
    · simp [hpk]
    · rw [if_neg (fun h : k = p => hpk h.symm), if_neg hpk]
  | cons e rest ih =>
    simp only [cartSet]
    by_cases hek : e.1 = k
    · rw [if_pos hek]
      simp only [cartGet]
      by_cases hpk : p = k
      · rw [if_pos hpk.symm, if_pos hpk]
      · have h2 : ¬(e.1 = p) := fun h => hpk ((hek.symm.trans h).symm)
        rw [if_neg (fun h : k = p => hpk h.symm), if_neg hpk, if_neg h2]
    · rw [if_neg hek]
      simp only [cartGet]
      by_cases hep : e.1 = p
      · have hpk : ¬(p = k) := fun h => hek (hep.trans h)
        simp [hep, hpk]
      · simp [hep, ih]

theorem cartPositiveB_cartSet (c : Cart) (k : String) (n : ℤ)
    (hc : cartPositiveB c = true) (hn : 0 < n) :
    cartPositiveB (cartSet c k (CVal.int n)) = true := by
  induction c with
  | nil => simp [cartSet, cartPositiveB, entryPositive, hn]
  | cons e rest ih =>
    simp only [cartPositiveB, List.all_cons, Bool.and_eq_true] at hc
    simp only [cartSet]
    by_cases hek : e.1 = k
    · rw [if_pos hek]
      simp only [cartPositiveB, List.all_cons, Bool.and_eq_true]
      exact ⟨by simp [entryPositive, hn], hc.2⟩
    · rw [if_neg hek]
      simp only [cartPositiveB, List.all_cons, Bool.and_eq_true]
      exact ⟨hc.1, ih hc.2⟩

theorem cartGet_of_positive (c : Cart) (k : String) (v : CVal)
    (hc : cartPositiveB c = true) (h : cartGet c k = some v) :
    ∃ n : ℤ, v = CVal.int n ∧ 0 < n := by
  induction c with
  | nil => simp [cartGet] at h
  | cons e rest ih =>
    simp only [cartPositiveB, List.all_cons, Bool.and_eq_true] at hc
    simp only [cartGet] at h
    by_cases hek : e.1 = k
    · rw [if_pos hek] at h
      obtain rfl : e.2 = v := Option.some.inj h
      revert hc
      match e with
      | (_, CVal.int n) => intro hc; exact ⟨n, rfl, by simpa [entryPositive] using hc.1⟩
      | (_, CVal.str s) => intro hc; simp [entryPositive] at hc
    · rw [if_neg hek] at h
      exact ih hc.2 h

/-! ### Helper lemmas: money -/

theorem halfUp_sub_abs_le (x : ℚ) : |((halfUp x : ℤ) : ℚ) - x| ≤ 1 / 2 := by
  unfold halfUp
  by_cases h : 0 ≤ x
  · rw [if_pos h, abs_le]
    have h1 : ((⌊x + 1 / 2⌋ : ℤ) : ℚ) ≤ x + 1 / 2 := Int.floor_le _
    have h2 : x + 1 / 2 - 1 < ((⌊x + 1 / 2⌋ : ℤ) : ℚ) := Int.sub_one_lt_floor _
    constructor <;> push_cast <;> linarith
  · rw [if_neg h, abs_le]
    have h1 : ((⌊-x + 1 / 2⌋ : ℤ) : ℚ) ≤ -x + 1 / 2 := Int.floor_le _
    have h2 : -x + 1 / 2 - 1 < ((⌊-x + 1 / 2⌋ : ℤ) : ℚ) := Int.sub_one_lt_floor _
    constructor <;> push_cast <;> linarith

theorem halfUp_tie (x : ℚ) (h : |((halfUp x : ℤ) : ℚ) - x| = 1 / 2) :
    |x| < |((halfUp x : ℤ) : ℚ)| := by
  unfold halfUp at *
  by_cases h0 : 0 ≤ x
  · rw [if_pos h0] at h ⊢
    have h1 : ((⌊x + 1 / 2⌋ : ℤ) : ℚ) ≤ x + 1 / 2 := Int.floor_le _
    have h2 : x + 1 / 2 - 1 < ((⌊x + 1 / 2⌋ : ℤ) : ℚ) := Int.sub_one_lt_floor _
    have heq : ((⌊x + 1 / 2⌋ : ℤ) : ℚ) = x + 1 / 2 := by
      rcases abs_eq (by norm_num : (0 : ℚ) ≤ 1 / 2) |>.mp h with h3 | h3 <;> linarith
    rw [heq, abs_of_nonneg h0, abs_of_nonneg (by linarith)]
    linarith
  · rw [if_neg h0] at h ⊢
    have hx : x < 0 := lt_of_not_ge h0
    have h1 : ((⌊-x + 1 / 2⌋ : ℤ) : ℚ) ≤ -x + 1 / 2 := Int.floor_le _
    have h2 : -x + 1 / 2 - 1 < ((⌊-x + 1 / 2⌋ : ℤ) : ℚ) := Int.sub_one_lt_floor _
    have heq : ((⌊-x + 1 / 2⌋ : ℤ) : ℚ) = -x + 1 / 2 := by
      rcases abs_eq (by norm_num : (0 : ℚ) ≤ 1 / 2) |>.mp h with h3 | h3 <;> push_cast at h3 ⊢ <;> linarith
    rw [abs_of_neg hx]
    push_cast
    rw [heq, abs_of_nonpos (by linarith)]
    linarith

theorem halfUp_intCast (n : ℤ) : halfUp (n : ℚ) = n := by
  unfold halfUp
  by_cases h : (0 : ℚ) ≤ (n : ℚ)
  · rw [if_pos h]
    rw [show ((n : ℚ) + 1 / 2) = (n : ℤ) + (1 / 2 : ℚ) by push_cast; ring]
    rw [Int.floor_int_add]
    norm_num
  · rw [if_neg h]
    rw [show (-(n : ℚ) + 1 / 2) = ((-n : ℤ) : ℚ) + (1 / 2 : ℚ) by push_cast; ring]
    rw [Int.floor_int_add]
    norm_num

theorem money_sub_abs_le (q : ℚ) : |_money q - q| ≤ 1 / 200 := by
  unfold _money
  have h := halfUp_sub_abs_le (q * 100)
  rw [show ((halfUp (q * 100) : ℤ) : ℚ) / 100 - q
      = (((halfUp (q * 100) : ℤ) : ℚ) - q * 100) / 100 by ring]
  rw [abs_div]
  rw [show |(100 : ℚ)| = 100 by norm_num]
  linarith

theorem money_tie (q : ℚ) (h : |_money q - q| = 1 / 200) : |q| < |_money q| := by
  unfold _money at *
  have hx : |((halfUp (q * 100) : ℤ) : ℚ) - q * 100| = 1 / 2 := by
    rw [show ((halfUp (q * 100) : ℤ) : ℚ) / 100 - q
        = (((halfUp (q * 100) : ℤ) : ℚ) - q * 100) / 100 by ring] at h
    rw [abs_div, show |(100 : ℚ)| = 100 by norm_num] at h
    linarith
  have := halfUp_tie (q * 100) hx
  rw [abs_div, show |(100 : ℚ)| = 100 by norm_num]
  rw [show |q| = |q * 100| / 100 by rw [abs_mul]; norm_num]
  linarith

theorem money_mul_100_int (q : ℚ) : ∃ n : ℤ, _money q = (n : ℚ) / 100 :=
  ⟨halfUp (q * 100), rfl⟩

theorem money_idem (q : ℚ) : _money (_money q) = _money q := by
  unfold _money
  rw [show ((halfUp (q * 100) : ℤ) : ℚ) / 100 * 100 = ((halfUp (q * 100) : ℤ) : ℚ) by ring]
  rw [halfUp_intCast]

/-! ### Helper lemmas: badge count -/

theorem sumQuantities_all (l : List CVal)
    (h : ∀ v ∈ l, (cvToInt v).isSome = true) :
    sumQuantities l = some ((l.filterMap cvToInt).sum) := by
  induction l with
  | nil => simp [sumQuantities]
  | cons v rest ih =>
    have hv := h v (List.mem_cons_self _ _)
    obtain ⟨n, hn⟩ := Option.isSome_iff_exists.mp hv
    have hrest := ih (fun w hw => h w (List.mem_cons_of_mem _ hw))
    simp [sumQuantities, hn, hrest, List.filterMap_cons]

theorem sumQuantities_bad (l : List CVal)
    (h : ∃ v ∈ l, cvToInt v = none) :
    sumQuantities l = none := by
  induction l with
  | nil => simp at h
  | cons v rest ih =>
    obtain ⟨w, hw, hwn⟩ := h
    rcases List.mem_cons.mp hw with rfl | hmem
    · simp [sumQuantities, hwn]
    · have := ih ⟨w, hmem, hwn⟩
      simp only [sumQuantities, this]
      cases cvToInt v <;> simp

/-! ### Helper lemmas: update_cart -/

theorem update_cart_entry_positive (c : Cart) (key val : String)
    (hc : cartPositiveB c = true) :
    cartPositiveB (update_cart_entry c key val) = true := by
  unfold update_cart_entry
  by_cases hk : startsWithQty key = true
  · rw [if_pos hk]
    cases hp : parsePyInt val with
    | none => exact hc
    | some v =>
      dsimp only
      by_cases hq : 0 < max 0 v
      · rw [if_pos hq]
        exact cartPositiveB_cartSet _ _ _ hc hq
      · rw [if_neg hq]; exact hc
  · rw [if_neg hk]; exact hc

theorem update_cart_foldl_positive (form : List (String × String)) (acc : Cart)
    (hacc : cartPositiveB acc = true) :
    cartPositiveB (form.foldl (fun c kv => update_cart_entry c kv.1 kv.2) acc) = true := by
  induction form generalizing acc with
  | nil => simpa using hacc
  | cons kv rest ih =>
    simp only [List.foldl_cons]
    exact ih _ (update_cart_entry_positive _ _ _ hacc)

theorem update_cart_positive (form : List (String × String)) :
    cartPositiveB (update_cart form) = true :=
  update_cart_foldl_positive form [] rfl

/-- What it takes for one posted form field to put `(pid, v)` into the
rebuilt cart. -/
def producesEntry (kv : String × String) (pid : String) (v : CVal) : Prop :=
  startsWithQty kv.1 = true ∧ pyReplace kv.1 "qty_" "" = pid ∧
    ∃ m : ℤ, parsePyInt kv.2 = some m ∧ 0 < max 0 m ∧ v = CVal.int (max 0 m)

theorem update_cart_entry_get (c : Cart) (key val pid : String) (v : CVal)
    (h : cartGet (update_cart_entry c key val) pid = some v) :
    cartGet c pid = some v ∨ producesEntry (key, val) pid v := by
  unfold update_cart_entry at h
  by_cases hk : startsWithQty key = true
  · rw [if_pos hk] at h
    cases hp : parsePyInt val with
    | none => rw [hp] at h; exact Or.inl h
    | some m =>
      rw [hp] at h
      dsimp only at h
      by_cases hq : 0 < max 0 m
      · rw [if_pos hq, cartGet_cartSet] at h
        by_cases hpid : pid = pyReplace key "qty_" ""
        · rw [if_pos hpid] at h
          exact Or.inr ⟨hk, hpid.symm, m, hp, hq, (Option.some.inj h).symm⟩
        · rw [if_neg hpid] at h
          exact Or.inl h
      · rw [if_neg hq] at h; exact Or.inl h
  · rw [if_neg hk] at h; exact Or.inl h

theorem update_cart_foldl_get (form : List (String × String)) (acc : Cart)
    (pid : String) (v : CVal)
    (h : cartGet (form.foldl (fun c kv => update_cart_entry c kv.1 kv.2) acc) pid = some v) :
    cartGet acc pid = some v ∨ ∃ kv ∈ form, producesEntry kv pid v := by
  induction form generalizing acc with
  | nil => exact Or.inl (by simpa using h)
  | cons kv rest ih =>
    simp only [List.foldl_cons] at h
    rcases ih _ h with hacc | ⟨kv2, hmem, hprod⟩
    · rcases update_cart_entry_get _ _ _ _ _ hacc with h1 | h1
      · exact Or.inl h1
      · exact Or.inr ⟨kv, List.mem_cons_self _ _, h1⟩
    · exact Or.inr ⟨kv2, List.mem_cons_of_mem _ hmem, hprod⟩

/-! ### Helper lemmas: cart resolution -/

theorem resolveEntry_ok_some (P : List Product) (pid : String) (qty : CVal)
    (it : LineItem) (h : resolveEntry P pid qty = Except.ok (some it)) :
    ∃ n product qd qi, parsePyInt pid = some n ∧
      P.find? (fun p => p.id == n) = some product ∧
      cvToDec qty = some qd ∧ cvToInt qty = some qi ∧
      it = { id := product.id, name := product.name, price := _money product.price,
             qty := qi, line_total := _money (product.price * qd) } := by
  cases P with
  | nil => simp [resolveEntry] at h
  | cons p0 ps =>
    unfold resolveEntry at h
    dsimp only at h
    cases hp : parsePyInt pid with
    | none => rw [hp] at h; exact absurd h (by simp)
    | some n =>
      rw [hp] at h
      dsimp only at h
      cases hf : (p0 :: ps).find? (fun p => p.id == n) with
      | none => rw [hf] at h; exact absurd h (by simp)
      | some product =>
        rw [hf] at h
        dsimp only at h
        cases hd : cvToDec qty with
        | none => rw [hd] at h; dsimp only at h; exact absurd h (by simp)
        | some qd =>
          cases hi : cvToInt qty with
          | none => rw [hd, hi] at h; dsimp only at h; exact absurd h (by simp)
          | some qi =>
            rw [hd, hi] at h
            dsimp only at h
            exact ⟨n, product, qd, qi, rfl, hf, rfl, rfl,
              (Option.some.inj (Except.ok.inj h)).symm⟩

theorem resolveEntry_wf (P : List Product) (pid : String) (qty : CVal)
    (h : entryWF (pid, qty) = true) :
    ∃ o, resolveEntry P pid qty = Except.ok o := by
  unfold entryWF at h
  simp only [Bool.and_eq_true] at h
  obtain ⟨n, hn⟩ := Option.isSome_iff_exists.mp h.1
  cases P with
  | nil => exact ⟨none, rfl⟩
  | cons p0 ps =>
    unfold resolveEntry
    dsimp only
    rw [hn]
    dsimp only
    cases hf : (p0 :: ps).find? (fun p => p.id == n) with
    | none => exact ⟨none, rfl⟩
    | some product =>
      cases qty with
      | int m => exact ⟨_, rfl⟩
      | str s => exact absurd h.2 (by simp)

theorem resolveItems_wf (P : List Product) (cart : Cart)
    (h : cartWF cart = true) :
    ∃ items, resolveItems P cart = Except.ok items := by
  induction cart with
  | nil => exact ⟨[], rfl⟩
  | cons e rest ih =>
    simp only [cartWF, List.all_cons, Bool.and_eq_true] at h
    obtain ⟨items, hitems⟩ := ih h.2
    obtain ⟨o, ho⟩ := resolveEntry_wf P e.1 e.2 h.1
    cases o with
    | none =>
      refine ⟨items, ?_⟩
      show resolveItems P (e :: rest) = _
      rw [show (e : String × CVal) = (e.1, e.2) from rfl]
      unfold resolveItems
      rw [ho, hitems]
    | some it =>
      refine ⟨it :: items, ?_⟩
      show resolveItems P (e :: rest) = _
      rw [show (e : String × CVal) = (e.1, e.2) from rfl]
      unfold resolveItems
      rw [ho, hitems]

theorem resolveItems_mem (P : List Product) (cart : Cart) (items : List LineItem)
    (h : resolveItems P cart = Except.ok items) :
    ∀ it ∈ items, ∃ product, product ∈ P ∧ it.id = product.id ∧
      it.name = product.name ∧ it.price = _money product.price ∧
      ∃ qd, it.line_total = _money (product.price * qd) := by
  induction cart generalizing items with
  | nil =>
    obtain rfl : ([] : List LineItem) = items := Except.ok.inj h
    intro it hit
    simp at hit
  | cons e rest ih =>
    rw [show (e : String × CVal) = (e.1, e.2) from rfl] at h
    unfold resolveItems at h
    cases hre : resolveEntry P e.1 e.2 with
    | error er => rw [hre] at h; exact absurd h (by simp)
    | ok o =>
      rw [hre] at h
      cases o with
      | none => exact ih items h
      | some it0 =>
        cases hrest : resolveItems P rest with
        | error er => rw [hrest] at h; exact absurd h (by simp)
        | ok items' =>
          rw [hrest] at h
          obtain rfl : it0 :: items' = items := Except.ok.inj h
          intro it hit
          rcases List.mem_cons.mp hit with rfl | hmem
          · obtain ⟨n, product, qd, qi, _, hf, _, _, hit0⟩ :=
              resolveEntry_ok_some P e.1 e.2 it hre
            refine ⟨product, List.mem_of_find?_eq_some hf, ?_, ?_, ?_, qd, ?_⟩ <;>
              rw [hit0]
          · exact ih items' hrest it hmem

/-- An entry that makes the `cart_items` loop raise: a key that fails
to parse while the catalog is nonempty (so the lazily evaluated
`int(pid)` actually runs), or a non-numeric quantity on an id the
catalog scan finds. -/
def badEntry (P : List Product) (e : String × CVal) : Prop :=
  (P ≠ [] ∧ parsePyInt e.1 = none) ∨
    ∃ n : ℤ, parsePyInt e.1 = some n ∧ (P.find? (fun p => p.id == n)).isSome = true ∧
      (cvToDec e.2 = none ∨ cvToInt e.2 = none)

theorem resolveEntry_bad (P : List Product) (e : String × CVal)
    (h : badEntry P e) : resolveEntry P e.1 e.2 = Except.error () := by
  rcases h with ⟨hne, h⟩ | ⟨n, hn, hf, hbad⟩
  · cases P with
    | nil => exact absurd rfl hne
    | cons p0 ps =>
      unfold resolveEntry
      dsimp only
      rw [h]
  · cases P with
    | nil => simp [List.find?] at hf
    | cons p0 ps =>
      unfold resolveEntry
      dsimp only
      rw [hn]
      dsimp only
      obtain ⟨product, hp⟩ := Option.isSome_iff_exists.mp hf
      rw [hp]
      dsimp only
      rcases hbad with h2 | h2
      · rw [h2]
      · rw [h2]
        cases cvToDec e.2 <;> rfl

theorem resolveItems_bad (P : List Product) (cart : Cart)
    (h : ∃ e ∈ cart, badEntry P e) :
    resolveItems P cart = Except.error () := by
  induction cart with
  | nil => simp at h
  | cons e rest ih =>
    obtain ⟨e2, he2, hbad⟩ := h
    rw [show (e : String × CVal) = (e.1, e.2) from rfl]
    unfold resolveItems
    rcases List.mem_cons.mp he2 with rfl | hmem
    · rw [resolveEntry_bad P e2 hbad]
    · cases hre : resolveEntry P e.1 e.2 with
      | error er => cases er; rfl
      | ok o =>
        have hrest := ih ⟨e2, hmem, hbad⟩
        cases o with
        | none => exact hrest
        | some it => rw [hrest]

theorem resolveItems_nil_catalog (cart : Cart) :
    resolveItems [] cart = Except.ok [] := by
  induction cart with
  | nil => rfl
  | cons e rest ih =>
    rw [show (e : String × CVal) = (e.1, e.2) from rfl]
    unfold resolveItems
    rw [show resolveEntry [] e.1 e.2 = Except.ok none from rfl, ih]

theorem money_zero : _money 0 = 0 := by
  norm_num [_money, halfUp]

/-! ### Helper lemmas: dispatch -/

theorem send_telegram_eq (tcfg : TelegramConfig) (net : HttpOutcome) (text : String) :
    send_telegram tcfg net text = Except.ok (sendTelegramB tcfg net) := by
  unfold send_telegram sendTelegramB
  by_cases h : (!truthy tcfg.token || !truthy tcfg.chatId) = true
  · rw [if_pos h, if_pos h]
  · rw [if_neg h, if_neg h]
    cases net with
    | ok r => cases hr : r.ok <;> simp [hr]
    | error e => rfl

theorem send_invoice_email_eq (mcfg : MailConfig) (tr : MailOutcome)
    (customer : Customer) (items : List LineItem) (subtotal : ℚ) :
    send_invoice_email mcfg tr customer items subtotal
      = Except.ok (sendInvoiceB mcfg tr) := by
  unfold send_invoice_email sendInvoiceB
  by_cases h : (!truthy mcfg.username) = true
  · rw [if_pos h, if_pos h]
  · rw [if_neg h, if_neg h]

theorem send_contact_ack_eq (mcfg : MailConfig) (tr : MailOutcome)
    (to_email name original_message : String) :
    send_contact_ack mcfg tr to_email name original_message
      = Except.ok (sendAckB mcfg tr to_email) := by
  unfold send_contact_ack sendAckB
  by_cases h : (to_email == "") = true
  · rw [if_pos h, if_pos h]
  · rw [if_neg h, if_neg h]
    by_cases h2 : (!truthy mcfg.username) = true
    · rw [if_pos h2, if_pos h2]
    · rw [if_neg h2, if_neg h2]

theorem contact_post_eq (tcfg : TelegramConfig) (net : HttpOutcome)
    (mcfg : MailConfig) (tr : MailOutcome) (nameRaw emailRaw messageRaw : String) :
    contact_post tcfg net mcfg tr nameRaw emailRaw messageRaw
      = Except.ok (sendTelegramB tcfg net,
          sendAckB mcfg tr (String.mk (stripChars emailRaw.toList)),
          contact_flash (sendTelegramB tcfg net)
            (sendAckB mcfg tr (String.mk (stripChars emailRaw.toList)))) := by
  unfold contact_post
  dsimp only
  rw [send_telegram_eq, send_contact_ack_eq]

theorem checkout_post_eq (PRODUCTS : List Product) (tcfg : TelegramConfig)
    (net : HttpOutcome) (mcfg : MailConfig) (tr : MailOutcome)
    (customer : Customer) (cart : Cart) (items : List LineItem) (st : ℚ)
    (h : cart_items PRODUCTS cart = Except.ok (items, st)) :
    checkout_post PRODUCTS tcfg net mcfg tr customer cart
      = Except.ok { items := items, subtotal := st,
                    pushOk := sendTelegramB tcfg net,
                    emailOk := sendInvoiceB mcfg tr,
                    flash := "Checkout successful! Thanks for your order.",
                    newCart := [] } := by
  unfold checkout_post
  rw [h]
  dsimp only
  rw [send_telegram_eq, send_invoice_email_eq]

/-! ### Concrete data used in difference witnesses -/

/-- A two-product catalog whose prices need a third decimal. -/
def demoCatalog : List Product :=
  [{ id := 1, name := "A", price := 201 / 200, category := "c" },
   { id := 2, name := "B", price := 201 / 200, category := "c" }]

/-- A cart holding one of each demo product. -/
def demoCart : Cart := [("1", CVal.int 1), ("2", CVal.int 1)]

/-- The line items `cart_items` resolves `demoCart` to. -/
def demoItems : List LineItem :=
  [{ id := 1, name := "A", price := 101 / 100, qty := 1, line_total := 101 / 100 },
   { id := 2, name := "B", price := 101 / 100, qty := 1, line_total := 101 / 100 }]

theorem demo_resolveEntry_1 :
    resolveEntry demoCatalog "1" (CVal.int 1)
      = Except.ok (some { id := 1, name := "A", price := 101 / 100, qty := 1,
                          line_total := 101 / 100 }) := by
  have h1 : parsePyInt "1" = some 1 := by decide
  unfold resolveEntry demoCatalog
  rw [h1]
  dsimp only
  rw [List.find?_cons_of_pos _ (by decide)]
  dsimp only [cvToDec, cvToInt]
  norm_num [_money, halfUp]

theorem demo_resolveEntry_2 :
    resolveEntry demoCatalog "2" (CVal.int 1)
      = Except.ok (some { id := 2, name := "B", price := 101 / 100, qty := 1,
                          line_total := 101 / 100 }) := by
  have h2 : parsePyInt "2" = some 2 := by decide
  unfold resolveEntry demoCatalog
  rw [h2]
  dsimp only
  rw [List.find?_cons_of_neg _ (by decide), List.find?_cons_of_pos _ (by decide)]
  dsimp only [cvToDec, cvToInt]
  norm_num [_money, halfUp]

theorem demo_resolveItems :
    resolveItems demoCatalog demoCart = Except.ok demoItems := by
  simp only [demoCart, demoItems, resolveItems, demo_resolveEntry_1, demo_resolveEntry_2]

theorem demo_cart_items :
    cart_items demoCatalog demoCart = Except.ok (demoItems, 101 / 50) := by
  unfold cart_items
  rw [demo_resolveItems]
  dsimp only [demoItems]
  norm_num [_money, halfUp]

theorem demo_rawSubtotal :
    rawSubtotal demoCatalog demoCart = Except.ok (201 / 100) := by
  have h1 : parsePyInt "1" = some 1 := by decide
  have h2 : parsePyInt "2" = some 2 := by decide
  have hf1 : List.find? (fun p => p.id == (1 : ℤ)) demoCatalog
      = some { id := 1, name := "A", price := 201 / 200, category := "c" } := by
    unfold demoCatalog
    rw [List.find?_cons_of_pos _ (by decide)]
  have hf2 : List.find? (fun p => p.id == (2 : ℤ)) demoCatalog
      = some { id := 2, name := "B", price := 201 / 200, category := "c" } := by
    unfold demoCatalog
    rw [List.find?_cons_of_neg _ (by decide), List.find?_cons_of_pos _ (by decide)]
  have hr : rawLineTotals demoCatalog demoCart
      = Except.ok [(201 : ℚ) / 200 * 1, (201 : ℚ) / 200 * 1] := by
    simp only [demoCart, rawLineTotals, h1, h2, hf1, hf2, cvToDec]
    norm_num
  unfold rawSubtotal
  rw [hr]
  dsimp only
  norm_num [_money, halfUp]

/-! ### Claims -/

/-- C1, counterexample: the claimed cart invariant fails at the public
`add_to_cart` interface.  Starting from a cart satisfying the invariant,
posting quantity `"-1"` for a product with quantity 1 leaves the entry
in the map with quantity 0: the quantity reached 0 but the entry was not
removed, and a non-positive quantity is stored. -/
theorem c1_cart_invariant_counterexample :
    add_to_cart "3" (some "-1") [("3", CVal.int 1)]
      = Except.ok [("3", CVal.int 0)] ∧
    cartPositiveB [("3", CVal.int 1)] = true ∧
    cartPositiveB [("3", CVal.int 0)] = false :=
  ⟨by decide, by decide, by decide⟩

/-- C1, amended: `update_cart` (replaceAll) always rebuilds a cart all
of whose entries are strictly positive integers, and clearing yields the
trivially positive empty cart; `add_to_cart` is a raw additive merge
that preserves positivity only when the posted quantity is itself
positive — with a non-positive quantity it can store entries of
quantity ≤ 0, which stay in the map. -/
theorem c1_cart_invariant_amended (form : List (String × String))
    (pid q : String) (v : ℤ) (cart c2 : Cart)
    (hpos : cartPositiveB cart = true) (hq : parsePyInt q = some v) (hv : 0 < v)
    (hadd : add_to_cart pid (some q) cart = Except.ok c2) :
    cartPositiveB (update_cart form) = true ∧
    cartPositiveB c2 = true ∧
    cartPositiveB ([] : Cart) = true := by
  refine ⟨update_cart_positive form, ?_, rfl⟩
  unfold add_to_cart at hadd
  rw [show (some q).getD "1" = q from rfl, hq] at hadd
  dsimp only at hadd
  cases hg : cartGet cart pid with
  | none =>
    rw [hg] at hadd
    obtain rfl : cartSet cart pid (CVal.int (0 + v)) = c2 := Except.ok.inj hadd
    exact cartPositiveB_cartSet _ _ _ hpos (by omega)
  | some w =>
    rw [hg] at hadd
    cases w with
    | int n =>
      obtain ⟨m, hm, hmpos⟩ := cartGet_of_positive cart pid (CVal.int n) hpos hg
      obtain rfl : n = m := by
        have := CVal.int.inj hm
        omega
      obtain rfl : cartSet cart pid (CVal.int (n + v)) = c2 := Except.ok.inj hadd
      exact cartPositiveB_cartSet _ _ _ hpos (by omega)
    | str s => exact absurd hadd (by simp)

/-- C1, witness for the amended theorem at concrete inputs. -/
theorem c1_cart_invariant_amended_witness :
    cartPositiveB (update_cart [("qty_5", "2")]) = true ∧
    cartPositiveB [("3", CVal.int 1), ("4", CVal.int 2)] = true ∧
    cartPositiveB ([] : Cart) = true :=
  c1_cart_invariant_amended [("qty_5", "2")] "4" "2" 2
    [("3", CVal.int 1)] [("3", CVal.int 1), ("4", CVal.int 2)]
    (by decide) (by decide) (by decide) (by decide)

/-- C2: for every checkout POST whose cart resolution succeeds — in
particular for every combination of Telegram/network and mail/transport
behaviours, including both channels failing — the route terminates
normally with the session cart set to the empty map and the success
flash shown to the user. -/
theorem c2_checkout_clears_cart (PRODUCTS : List Product)
    (tcfg : TelegramConfig) (net : HttpOutcome) (mcfg : MailConfig)
    (tr : MailOutcome) (customer : Customer) (cart : Cart)
    (items : List LineItem) (st : ℚ)
    (h : cart_items PRODUCTS cart = Except.ok (items, st)) :
    ∃ r, checkout_post PRODUCTS tcfg net mcfg tr customer cart = Except.ok r ∧
      r.newCart = [] ∧ r.flash = "Checkout successful! Thanks for your order." :=
  ⟨_, checkout_post_eq PRODUCTS tcfg net mcfg tr customer cart items st h, rfl, rfl⟩

/-- C2, witness: an empty cart checked out with both channels failing
(no Telegram config and a raising mail transport) still clears the cart
and flashes success. -/
theorem c2_checkout_clears_cart_witness :
    ∃ r, checkout_post [] ⟨none, none⟩ (Except.error ()) ⟨none⟩ (Except.error ())
        ⟨"n", "a", "e", "p"⟩ [] = Except.ok r ∧
      r.newCart = [] ∧ r.flash = "Checkout successful! Thanks for your order." :=
  c2_checkout_clears_cart [] ⟨none, none⟩ (Except.error ()) ⟨none⟩ (Except.error ())
    ⟨"n", "a", "e", "p"⟩ [] [] (_money 0) rfl

/-- C3: dispatch is unconditional and independent.  The contact route
always returns the pair of channel outcomes, where the push outcome is a
function of the Telegram configuration and network behaviour alone and
the ack outcome a function of the mail configuration, transport and
recipient alone; the checkout route likewise computes its two outcomes
from disjoint inputs; and both mixed outcomes `(true, false)` and
`(false, true)` are realized. -/
theorem c3_dispatch_independent :
    (∀ (tcfg : TelegramConfig) (net : HttpOutcome) (mcfg : MailConfig)
        (tr : MailOutcome) (n e m : String),
      contact_post tcfg net mcfg tr n e m
        = Except.ok (sendTelegramB tcfg net,
            sendAckB mcfg tr (String.mk (stripChars e.toList)),
            contact_flash (sendTelegramB tcfg net)
              (sendAckB mcfg tr (String.mk (stripChars e.toList))))) ∧
    (∀ (PRODUCTS : List Product) (tcfg : TelegramConfig) (net : HttpOutcome)
        (mcfg : MailConfig) (tr : MailOutcome) (customer : Customer) (cart : Cart)
        (items : List LineItem) (st : ℚ),
      cart_items PRODUCTS cart = Except.ok (items, st) →
      ∃ r, checkout_post PRODUCTS tcfg net mcfg tr customer cart = Except.ok r ∧
        r.pushOk = sendTelegramB tcfg net ∧ r.emailOk = sendInvoiceB mcfg tr) ∧
    (∃ tcfg net mcfg tr r, contact_post tcfg net mcfg tr "n" "a@b.com" "hi"
        = Except.ok r ∧ r.1 = true ∧ r.2.1 = false) ∧
    (∃ tcfg net mcfg tr r, contact_post tcfg net mcfg tr "n" "a@b.com" "hi"
        = Except.ok r ∧ r.1 = false ∧ r.2.1 = true) := by
  refine ⟨contact_post_eq, ?_, ?_, ?_⟩
  · intro PRODUCTS tcfg net mcfg tr customer cart items st h
    exact ⟨_, checkout_post_eq PRODUCTS tcfg net mcfg tr customer cart items st h, rfl, rfl⟩
  · exact ⟨⟨some "t", some "c"⟩, Except.ok ⟨true, 200, ""⟩, ⟨none⟩, Except.error (), _,
      contact_post_eq _ _ _ _ _ _ _, by decide, by decide⟩
  · exact ⟨⟨none, none⟩, Except.error (), ⟨some "u"⟩, Except.ok (), _,
      contact_post_eq _ _ _ _ _ _ _, by decide, by decide⟩

/-- C3, witness for the hypothesis-bearing checkout conjunct at concrete
inputs. -/
theorem c3_dispatch_independent_witness :
    ∃ r, checkout_post [] ⟨none, none⟩ (Except.error ()) ⟨none⟩ (Except.error ())
        ⟨"n", "a", "e", "p"⟩ [] = Except.ok r ∧
      r.pushOk = sendTelegramB ⟨none, none⟩ (Except.error ()) ∧
      r.emailOk = sendInvoiceB ⟨none⟩ (Except.error ()) :=
  c3_dispatch_independent.2.1 [] ⟨none, none⟩ (Except.error ()) ⟨none⟩
    (Except.error ()) ⟨"n", "a", "e", "p"⟩ [] [] (_money 0) rfl

/-- C4: the subtotal computed by `cart_items` is the half-up
quantization of the sum of the per-line totals, each of which is itself
already quantized (quantization is idempotent on them); and on the demo
catalog (two items priced 1.005) this differs from quantizing the raw
unrounded sum: 2.02 versus 2.01. -/
theorem c4_subtotal_quantization_order (P : List Product) (cart : Cart)
    (items : List LineItem) (st : ℚ)
    (h : cart_items P cart = Except.ok (items, st)) :
    st = _money ((items.map (fun i => i.line_total)).sum) ∧
    (∀ it ∈ items, _money it.line_total = it.line_total) ∧
    (cart_items demoCatalog demoCart = Except.ok (demoItems, 101 / 50) ∧
     rawSubtotal demoCatalog demoCart = Except.ok (201 / 100) ∧
     (101 / 50 : ℚ) ≠ 201 / 100) := by
  refine ⟨?_, ?_, ?_, ?_, by norm_num⟩
  · unfold cart_items at h
    cases hres : resolveItems P cart with
    | error er => rw [hres] at h; exact absurd h (by simp)
    | ok its =>
      rw [hres] at h
      dsimp only at h
      obtain ⟨h1, h2⟩ := Prod.mk.injEq .. ▸ Except.ok.inj h
      rw [← h1, ← h2]
  · intro it hit
    unfold cart_items at h
    cases hres : resolveItems P cart with
    | error er => rw [hres] at h; exact absurd h (by simp)
    | ok its =>
      rw [hres] at h
      dsimp only at h
      obtain ⟨h1, h2⟩ := Prod.mk.injEq .. ▸ Except.ok.inj h
      obtain ⟨p, _, _, _, _, qd, hlt⟩ :=
        resolveItems_mem P cart its hres it (h1 ▸ hit)
      rw [hlt, money_idem]
  · exact demo_cart_items
  · exact demo_rawSubtotal

/-- C4, witness at the demo catalog and cart. -/
theorem c4_subtotal_quantization_order_witness :
    (101 / 50 : ℚ) = _money ((demoItems.map (fun i => i.line_total)).sum) ∧
    (∀ it ∈ demoItems, _money it.line_total = it.line_total) ∧
    (cart_items demoCatalog demoCart = Except.ok (demoItems, 101 / 50) ∧
     rawSubtotal demoCatalog demoCart = Except.ok (201 / 100) ∧
     (101 / 50 : ℚ) ≠ 201 / 100) :=
  c4_subtotal_quantization_order demoCatalog demoCart demoItems (101 / 50)
    demo_cart_items

/-- C5, counterexample: one malformed stored value zeroes the whole
badge count instead of contributing 0: with entries `2` and `"x"` the
code computes 0 while the claimed sum of parseable quantities is 2. -/
theorem c5_total_quantity_counterexample :
    inject_cart_count [("1", CVal.int 2), ("2", CVal.str "x")] = 0 ∧
    totalQuantity_claimed [("1", CVal.int 2), ("2", CVal.str "x")] = 2 ∧
    (0 : ℤ) ≠ 2 :=
  ⟨by decide, by decide, by decide⟩

/-- C5, amended: the badge count never raises and equals the sum of all
quantities when every stored value parses as an integer, but collapses
to 0 for the entire cart as soon as any single stored value is
malformed. -/
theorem c5_total_quantity_amended (cart : Cart) :
    ((∀ v ∈ cart.map (fun e => e.2), (cvToInt v).isSome = true) →
      inject_cart_count cart = totalQuantity_claimed cart) ∧
    ((∃ v ∈ cart.map (fun e => e.2), cvToInt v = none) →
      inject_cart_count cart = 0) := by
  constructor
  · intro h
    unfold inject_cart_count totalQuantity_claimed
    rw [sumQuantities_all _ h]
  · intro h
    unfold inject_cart_count
    rw [sumQuantities_bad _ h]

/-- C5, witness for the amended theorem at a fully well-formed cart. -/
theorem c5_total_quantity_amended_witness :
    inject_cart_count [("1", CVal.int 2), ("7", CVal.int 3)]
      = totalQuantity_claimed [("1", CVal.int 2), ("7", CVal.int 3)] :=
  (c5_total_quantity_amended _).1 (by decide)

/-- C6: `update_cart` fully replaces the cart from the posted form:
every entry of the rebuilt cart is a positive integer quantity that
stems from some `qty_`-prefixed form field whose value parsed and
clamped to a positive number (so ids not re-specified are dropped); an
explicit `"0"` removes the product, a negative value is clamped to 0 and
likewise not inserted, and an unparseable value is silently skipped. -/
theorem c6_replace_all (form : List (String × String)) (pid : String) (v : CVal) :
    (cartGet (update_cart form) pid = some v →
      (∃ n : ℤ, v = CVal.int n ∧ 0 < n) ∧
      ∃ kv ∈ form, startsWithQty kv.1 = true ∧ pyReplace kv.1 "qty_" "" = pid ∧
        ∃ m : ℤ, parsePyInt kv.2 = some m ∧ v = CVal.int (max 0 m)) ∧
    update_cart [("qty_3", "0")] = [] ∧
    update_cart [("qty_3", "-5")] = [] ∧
    update_cart [("qty_3", "abc"), ("qty_4", "2")] = [("4", CVal.int 2)] := by
  refine ⟨?_, by decide, by decide, by decide⟩
  intro h
  refine ⟨cartGet_of_positive _ _ _ (update_cart_positive form) h, ?_⟩
  unfold update_cart at h
  rcases update_cart_foldl_get form [] pid v h with h1 | ⟨kv, hmem, hprod⟩
  · exact absurd h1 (by simp [cartGet])
  · obtain ⟨m, hm, _, hv⟩ := hprod.2.2
    exact ⟨kv, hmem, hprod.1, hprod.2.1, m, hm, hv⟩

/-- C6, witness: the provenance implication at a concrete form. -/
theorem c6_replace_all_witness :
    (∃ n : ℤ, CVal.int 2 = CVal.int n ∧ 0 < n) ∧
    ∃ kv ∈ [("qty_3", "2")], startsWithQty kv.1 = true ∧
      pyReplace kv.1 "qty_" "" = "3" ∧
      ∃ m : ℤ, parsePyInt kv.2 = some m ∧ CVal.int 2 = CVal.int (max 0 m) :=
  (c6_replace_all [("qty_3", "2")] "3" (CVal.int 2)).1 (by decide)

/-- C7: `_money` rounds every rational to an exact multiple of 1/100
that is nearest (within 1/200), breaking exact ties away from zero —
the half-up convention — and in particular sends 10.005 to 10.01 and
10.004 to 10.00. -/
theorem c7_quantize_half_up (q : ℚ) :
    (∃ n : ℤ, _money q = (n : ℚ) / 100) ∧
    |_money q - q| ≤ 1 / 200 ∧
    (|_money q - q| = 1 / 200 → |q| < |_money q|) ∧
    _money (10 + 5 / 1000) = 10 + 1 / 100 ∧
    _money (10 + 4 / 1000) = 10 :=
  ⟨money_mul_100_int q, money_sub_abs_le q, money_tie q,
    by norm_num [_money, halfUp], by norm_num [_money, halfUp]⟩

/-- C7, witness: the tie case at 10.005, a genuine half-way point, is
rounded away from zero. -/
theorem c7_quantize_half_up_witness :
    |_money (10 + 5 / 1000) - (10 + 5 / 1000)| = 1 / 200 ∧
    |(10 + 5 / 1000 : ℚ)| < |_money (10 + 5 / 1000)| := by
  have htie : |_money (10 + 5 / 1000) - (10 + 5 / 1000)| = (1 / 200 : ℚ) := by
    rw [show _money (10 + 5 / 1000) = 10 + 1 / 100 by norm_num [_money, halfUp]]
    rw [show (10 + 1 / 100 : ℚ) - (10 + 5 / 1000) = 1 / 200 by norm_num]
    norm_num
  exact ⟨htie, (c7_quantize_half_up (10 + 5 / 1000)).2.2.1 htie⟩

/-- C8: on any well-formed cart (integer-parsable keys, integer
quantities), `cart_items` returns normally; every returned line item
corresponds to a catalog product, and a cart entry whose id matches no
catalog product contributes no line item — it is silently dropped while
the cart itself is left untouched (`cart_items` reads but never writes
the cart). -/
theorem c8_resolve_drops_unknown (P : List Product) (cart : Cart)
    (hwf : cartWF cart = true) :
    ∃ items st, cart_items P cart = Except.ok (items, st) ∧
      (∀ it ∈ items, ∃ product, product ∈ P ∧ it.id = product.id ∧
        it.name = product.name) ∧
      (∀ e ∈ cart, (∀ product ∈ P, parsePyInt e.1 ≠ some product.id) →
        ∀ it ∈ items, parsePyInt e.1 ≠ some it.id) := by
  obtain ⟨items, hitems⟩ := resolveItems_wf P cart hwf
  refine ⟨items, _money ((items.map (fun i => i.line_total)).sum), ?_, ?_, ?_⟩
  · unfold cart_items
    rw [hitems]
  · intro it hit
    obtain ⟨p, hp, hid, hname, _, _⟩ := resolveItems_mem P cart items hitems it hit
    exact ⟨p, hp, hid, hname⟩
  · intro e _ hunk it hit heq
    obtain ⟨p, hp, hid, _, _, _⟩ := resolveItems_mem P cart items hitems it hit
    exact hunk p hp (hid ▸ heq)

/-- C8, witness: a well-formed cart whose only id is unknown resolves to
no line items without raising. -/
theorem c8_resolve_drops_unknown_witness :
    cartWF [("9", CVal.int 1)] = true ∧
    ∃ items st, cart_items [] [("9", CVal.int 1)] = Except.ok (items, st) ∧
      (∀ it ∈ items, ∃ product, product ∈ ([] : List Product) ∧
        it.id = product.id ∧ it.name = product.name) ∧
      (∀ e ∈ [("9", CVal.int 1)],
        (∀ product ∈ ([] : List Product), parsePyInt e.1 ≠ some product.id) →
        ∀ it ∈ items, parsePyInt e.1 ≠ some it.id) :=
  ⟨by decide, c8_resolve_drops_unknown [] [("9", CVal.int 1)] (by decide)⟩

/-- C9: none of the three notification senders can raise to its caller:
each returns a boolean for every configuration and every transport
behaviour (missing configuration, raised exception, failed response),
and the boolean is true exactly on the success condition of that
channel. -/
theorem c9_no_exception_escapes (tcfg : TelegramConfig) (net : HttpOutcome)
    (text : String) (mcfg : MailConfig) (tr tr2 : MailOutcome)
    (customer : Customer) (items : List LineItem) (st : ℚ)
    (to_email nm msg : String) :
    (∃ b, send_telegram tcfg net text = Except.ok b ∧
      (b = true ↔ truthy tcfg.token = true ∧ truthy tcfg.chatId = true ∧
        ∃ r, net = Except.ok r ∧ r.ok = true)) ∧
    (∃ b, send_invoice_email mcfg tr customer items st = Except.ok b ∧
      (b = true ↔ truthy mcfg.username = true ∧ tr = Except.ok ())) ∧
    (∃ b, send_contact_ack mcfg tr2 to_email nm msg = Except.ok b ∧
      (b = true ↔ to_email ≠ "" ∧ truthy mcfg.username = true ∧
        tr2 = Except.ok ())) := by
  refine ⟨⟨_, send_telegram_eq tcfg net text, ?_⟩,
    ⟨_, send_invoice_email_eq mcfg tr customer items st, ?_⟩,
    ⟨_, send_contact_ack_eq mcfg tr2 to_email nm msg, ?_⟩⟩
  · unfold sendTelegramB
    by_cases h1 : truthy tcfg.token = true
    · by_cases h2 : truthy tcfg.chatId = true
      · simp only [h1, h2, Bool.not_true, Bool.false_or, if_false, true_and]
        cases net with
        | ok r => simp
        | error e => simp
      · simp [h1, h2]
    · simp [h1]
  · unfold sendInvoiceB
    by_cases h1 : truthy mcfg.username = true
    · simp only [h1, Bool.not_true, if_false, true_and]
      cases tr with
      | ok u => cases u; simp
      | error e => cases e; simp
    · simp [h1]
  · unfold sendAckB
    by_cases h0 : (to_email == "") = true
    · have he : to_email = "" := beq_iff_eq.mp h0
      simp [h0, he]
    · have hne : to_email ≠ "" := fun he => h0 (by simp [he])
      simp only [h0, if_false]
      by_cases h1 : truthy mcfg.username = true
      · simp only [h1, Bool.not_true, if_false, hne, true_and]
        cases tr2 with
        | ok u => cases u; simp [hne]
        | error e => cases e; simp [hne]
      · simp [h1, hne]

/-- C10, counterexample: against a nonempty catalog, a cart entry with
a well-formed but unknown id and a non-numeric quantity does not raise —
the catalog scan finds no product, so the entry is skipped before the
quantity is ever converted, and `cart_items` returns normally. -/
theorem c10_resolve_totality_counterexample :
    cart_items demoCatalog [("999", CVal.str "x")] = Except.ok ([], 0) ∧
    cvToDec (CVal.str "x") = none ∧ cvToInt (CVal.str "x") = none ∧
    demoCatalog ≠ [] := by
  refine ⟨?_, by decide, by decide, by simp [demoCatalog]⟩
  have h999 : parsePyInt "999" = some 999 := by decide
  have he : resolveEntry demoCatalog "999" (CVal.str "x") = Except.ok none := by
    unfold resolveEntry demoCatalog
    dsimp only
    rw [h999]
    dsimp only
    rw [List.find?_cons_of_neg _ (by decide), List.find?_cons_of_neg _ (by decide)]
    rfl
  have hr : resolveItems demoCatalog [("999", CVal.str "x")] = Except.ok [] := by
    unfold resolveItems
    rw [he]
    rfl
  unfold cart_items
  rw [hr]
  dsimp only
  norm_num [_money, halfUp]

/-- C10, amended: `cart_items` raises whenever the catalog is nonempty
and some cart key fails to parse as an integer (the lazily evaluated
`int(pid)` runs at the first scanned product), and whenever the stored
quantity of a *known* product is non-numeric; with an empty catalog
every entry is skipped without the key being parsed, and a malformed
quantity on an unknown id is dropped together with its entry. -/
theorem c10_resolve_totality_amended (P : List Product) (cart : Cart) :
    ((P ≠ [] ∧ ∃ e ∈ cart, parsePyInt e.1 = none) →
      cart_items P cart = Except.error ()) ∧
    ((∃ e ∈ cart, ∃ n : ℤ, parsePyInt e.1 = some n ∧
        (P.find? (fun p => p.id == n)).isSome = true ∧
        (cvToDec e.2 = none ∨ cvToInt e.2 = none)) →
      cart_items P cart = Except.error ()) ∧
    cart_items [] cart = Except.ok ([], 0) := by
  refine ⟨?_, ?_, ?_⟩
  · intro h
    obtain ⟨hne, e, he, hbad⟩ := h
    unfold cart_items
    rw [resolveItems_bad P cart ⟨e, he, Or.inl ⟨hne, hbad⟩⟩]
  · intro h
    obtain ⟨e, he, n, hn, hf, hval⟩ := h
    unfold cart_items
    rw [resolveItems_bad P cart ⟨e, he, Or.inr ⟨n, hn, hf, hval⟩⟩]
  · unfold cart_items
    rw [resolveItems_nil_catalog cart]
    dsimp only
    rw [show ((List.map (fun i => i.line_total) ([] : List LineItem)).sum : ℚ) = 0 by simp,
      money_zero]

/-- C10, witness for the amended theorem: with a nonempty catalog, a key
that is not an integer makes checkout-side resolution raise. -/
theorem c10_resolve_totality_amended_witness :
    cart_items demoCatalog [("abc", CVal.int 1)] = Except.error () :=
  (c10_resolve_totality_amended demoCatalog [("abc", CVal.int 1)]).1
    ⟨by simp [demoCatalog], ("abc", CVal.int 1), List.mem_singleton_self _, by decide⟩

end KimhutCafe

